import Mathlib

/-!
Shallow embedding of the SRT protocol adapter (libavformat/libsrt.c):
the error mapping, the epoll-based readiness waiter, the deadline
polling loop, the listen/accept wait, pre-connection option
application, candidate fallback in connection setup, and mode parsing
at open time.  The opaque transport primitives (srt_* calls) are
modelled by environments recording each call's return value and the
transport's last-error code observed at that call.
-/

/-- AVERROR(EAGAIN) on Linux (EAGAIN = 11). -/
def AVERROR_EAGAIN : Int := -11

/-- AVERROR(ETIMEDOUT) on Linux (ETIMEDOUT = 110). -/
def AVERROR_ETIMEDOUT : Int := -110

/-- AVERROR(EINVAL) on Linux (EINVAL = 22). -/
def AVERROR_EINVAL : Int := -22

/-- AVERROR(EIO) on Linux (EIO = 5). -/
def AVERROR_EIO : Int := -5

/-- AVERROR_EXIT = FFERRTAG of E,X,I,T. -/
def AVERROR_EXIT : Int := -1414092869

/-- AVERROR_UNKNOWN = FFERRTAG of U,N,K,N. -/
def AVERROR_UNKNOWN : Int := -1313558101

/-- SRT error code for async receive not ready. -/
def SRT_EASYNCRCV : Int := 6002

/-- SRT error code for an expired epoll wait. -/
def SRT_ETIMEOUT : Int := 6003

/-- libsrt_neterrno: maps the transport's last error to an AVERROR code;
SRT_EASYNCRCV becomes AVERROR(EAGAIN), anything else AVERROR_UNKNOWN. -/
def libsrt_neterrno (lastError : Int) : Int :=
  if lastError = SRT_EASYNCRCV then AVERROR_EAGAIN else AVERROR_UNKNOWN

/-- Environment of one libsrt_network_wait_fd call: return values of
srt_epoll_add_usock, srt_epoll_wait and srt_epoll_remove_usock together
with the last-error code the transport would report after each. -/
structure WaitFdEnv where
  addRet : Int
  addErr : Int
  waitRet : Int
  waitErr : Int
  removeRet : Int
  removeErr : Int
deriving DecidableEq, Repr

/-- One call into the transport's epoll facility. -/
inductive EpollCall where
  | addCall (fd : Int)
  | waitCall
  | removeCall (fd : Int)
deriving DecidableEq, Repr

/-- Outcome of one libsrt_network_wait_fd call: the returned code, the
final registration set of the epoll group, and the sequence of epoll
calls that were issued. -/
structure WaitFdOut where
  ret : Int
  group : Finset Int
  calls : List EpollCall

/-- libsrt_network_wait_fd: register fd in the epoll group (failure maps
through libsrt_neterrno), poll once for POLLING_TIME (a negative poll
result maps SRT_ETIMEOUT to AVERROR(EAGAIN) and anything else through
libsrt_neterrno, success to 0), then unconditionally deregister fd; a
failed deregistration overrides the result with its mapped error. -/
def libsrt_network_wait_fd (e : WaitFdEnv) (fd : Int) (g : Finset Int) : WaitFdOut :=
  if e.addRet < 0 then
    { ret := libsrt_neterrno e.addErr, group := g, calls := [EpollCall.addCall fd] }
  else
    let ret := if e.waitRet < 0 then
        (if e.waitErr = SRT_ETIMEOUT then AVERROR_EAGAIN else libsrt_neterrno e.waitErr)
      else 0
    let g2 := (insert fd g).erase fd
    if e.removeRet < 0 then
      { ret := libsrt_neterrno e.removeErr, group := g2,
        calls := [EpollCall.addCall fd, EpollCall.waitCall, EpollCall.removeCall fd] }
    else
      { ret := ret, group := g2,
        calls := [EpollCall.addCall fd, EpollCall.waitCall, EpollCall.removeCall fd] }

/-- Result code of a libsrt_network_wait_fd call (the returned code does
not depend on the fd nor on the current registration set). -/
def waitFdR (e : WaitFdEnv) : Int := (libsrt_network_wait_fd e 0 ∅).ret

/-- One iteration of the polling loop in libsrt_network_wait_fd_timeout:
the interrupt-callback answer, the environment of that iteration's
libsrt_network_wait_fd call, and the value av_gettime_relative would
return in that iteration. -/
structure WaitIter where
  interrupted : Bool
  fdEnv : WaitFdEnv
  now : Int
deriving DecidableEq, Repr

/-- libsrt_network_wait_fd_timeout: polling loop with explicit
wait_start state (0 meaning not yet recorded, as in the source).  Per
iteration: return AVERROR_EXIT if the interrupt callback signals;
otherwise run one bounded poll and return its result unless it is
AVERROR(EAGAIN); on EAGAIN with a positive timeout, record wall-clock
start on the first such iteration and on later ones return
AVERROR(ETIMEDOUT) once now - wait_start exceeds the timeout.  The
result is paired with the iterations not yet consumed; a `none` result
means the supplied iteration stream ran out while still looping. -/
def libsrt_network_wait_fd_timeout (timeout : Int) :
    List WaitIter → Int → Option Int × List WaitIter
  | [], _ => (none, [])
  | it :: rest, waitStart =>
    if it.interrupted = true then (some AVERROR_EXIT, rest)
    else if waitFdR it.fdEnv ≠ AVERROR_EAGAIN then (some (waitFdR it.fdEnv), rest)
    else if 0 < timeout then
      if waitStart = 0 then libsrt_network_wait_fd_timeout timeout rest it.now
      else if timeout < it.now - waitStart then (some AVERROR_ETIMEDOUT, rest)
      else libsrt_network_wait_fd_timeout timeout rest waitStart
    else libsrt_network_wait_fd_timeout timeout rest waitStart

/-- Result of a full libsrt_network_wait_fd_timeout call, which starts
with wait_start = 0. -/
def waitTimeoutRun (timeout : Int) (iters : List WaitIter) : Option Int :=
  (libsrt_network_wait_fd_timeout timeout iters 0).1

/-- libsrt_read: in non-blocking mode call srt_recvmsg directly;
otherwise first run the deadline loop (read direction) and call
srt_recvmsg only on a 0 result, returning any other result as is.  A
negative receive maps through libsrt_neterrno. -/
def libsrt_read (nonblock : Bool) (timeout : Int) (iters : List WaitIter)
    (recvRet recvErr : Int) : Option Int :=
  if nonblock then some (if recvRet < 0 then libsrt_neterrno recvErr else recvRet)
  else
    match waitTimeoutRun timeout iters with
    | none => none
    | some r =>
      if r ≠ 0 then some r
      else some (if recvRet < 0 then libsrt_neterrno recvErr else recvRet)

/-- libsrt_write: symmetric to libsrt_read with the write direction and
srt_sendmsg. -/
def libsrt_write (nonblock : Bool) (timeout : Int) (iters : List WaitIter)
    (sendRet sendErr : Int) : Option Int :=
  if nonblock then some (if sendRet < 0 then libsrt_neterrno sendErr else sendRet)
  else
    match waitTimeoutRun timeout iters with
    | none => none
    | some r =>
      if r ≠ 0 then some r
      else some (if sendRet < 0 then libsrt_neterrno sendErr else sendRet)

/-- C-style 32-bit wraparound for an int64 value assigned to an int. -/
def wrap32 (x : Int) : Int := (x + 2 ^ 31) % 2 ^ 32 - 2 ^ 31

/-- The timeout argument libsrt_setup passes to libsrt_listen and to
libsrt_listen_connect: open_timeout / 1000, where open_timeout is
5000000 unless a nonnegative rw_timeout overrides it.  s->listen_timeout
is parsed from the URI but never read afterwards, so it is an unused
parameter here; division truncates toward zero as in C. -/
def libsrt_listen_timeout_arg (rw_timeout _listen_timeout : Int) : Int :=
  Int.tdiv (if 0 ≤ rw_timeout then wrap32 rw_timeout else 5000000) 1000

/-- Environment of one libsrt_listen call: results and last-error codes
of srt_bind, srt_listen and srt_accept, plus the iteration stream that
feeds the repeated libsrt_network_wait_fd_timeout calls.  The
best-effort SRTO_REUSEADDR option and the non-blocking toggle on the
accepted socket only log on failure and do not affect the result. -/
structure ListenEnv where
  bindRet : Int
  bindErr : Int
  listenRet : Int
  listenErr : Int
  iters : List WaitIter
  acceptRet : Int
  acceptErr : Int
deriving DecidableEq, Repr

/-- The accept-wait loop of libsrt_listen: while the deadline loop
returns nonzero, AVERROR(ETIMEDOUT) restarts the wait (each restart is
a fresh libsrt_network_wait_fd_timeout call with wait_start reset to 0)
and any other nonzero result is returned; a zero result ends the loop.
Fuel bounds the number of restarts; none means still looping when the
fuel or the iteration stream ran out. -/
def listenWaitLoop (timeout : Int) : Nat → List WaitIter → Option Int
  | 0, _ => none
  | Nat.succ fuel, iters =>
    match libsrt_network_wait_fd_timeout timeout iters 0 with
    | (some r, rest) =>
      if r = 0 then some 0
      else if r = AVERROR_ETIMEDOUT then listenWaitLoop timeout fuel rest
      else some r
    | (none, _) => none

/-- libsrt_listen: bind and listen (mapping nonzero results through
libsrt_neterrno), run the accept-wait loop, then accept (mapping a
negative result through libsrt_neterrno) and return the accepted
socket. -/
def libsrt_listen (timeout : Int) (e : ListenEnv) (fuel : Nat) : Option Int :=
  if e.bindRet ≠ 0 then some (libsrt_neterrno e.bindErr)
  else if e.listenRet ≠ 0 then some (libsrt_neterrno e.listenErr)
  else
    match listenWaitLoop timeout fuel e.iters with
    | none => none
    | some r =>
      if r ≠ 0 then some r
      else if e.acceptRet < 0 then some (libsrt_neterrno e.acceptErr)
      else some e.acceptRet

/-- The three connection modes of SRTContext. -/
inductive SRTMode where
  | caller
  | listener
  | rendezvous
deriving DecidableEq, Repr

/-- Per-candidate environment of the libsrt_setup loop: the srt_socket
result (with last-error code), whether libsrt_set_options_pre fails
(returning AVERROR(EIO)), the completed libsrt_listen result for
listener mode, the srt_bind result for rendezvous mode, the completed
libsrt_listen_connect result for the connect path, and whether
libsrt_set_options_post fails (returning AVERROR(EIO)). -/
structure CandEnv where
  socketRet : Int
  socketErr : Int
  preFails : Bool
  listenRet : Int
  bindRet : Int
  connectRet : Int
  postFails : Bool
deriving DecidableEq, Repr

/-- Outcome of one candidate attempt inside libsrt_setup: success with
the connected socket, failure through the fail label (advance to the
next candidate when one remains), or failure through the fail1 label
(return immediately); failures carry the fd that is then closed. -/
inductive AttemptOut where
  | success (fd : Int)
  | failNext (err : Int) (fd : Int)
  | failStop (err : Int) (fd : Int)
deriving DecidableEq, Repr

/-- The connect path shared by caller mode and rendezvous mode after
bind: a negative libsrt_listen_connect result goes to fail1 when it is
AVERROR_EXIT and to fail otherwise; afterwards a
libsrt_set_options_post failure goes to fail with AVERROR(EIO). -/
def setupAttemptConnect (c : CandEnv) : AttemptOut :=
  if c.connectRet < 0 then
    if c.connectRet = AVERROR_EXIT then AttemptOut.failStop c.connectRet c.socketRet
    else AttemptOut.failNext c.connectRet c.socketRet
  else if c.postFails then AttemptOut.failNext AVERROR_EIO c.socketRet
  else AttemptOut.success c.socketRet

/-- One candidate attempt of libsrt_setup: srt_socket failure and
libsrt_set_options_pre failure go to fail (next candidate); in listener
mode a negative libsrt_listen result goes to fail1 and on success fd
becomes the accepted socket (a later post-option failure closes that
accepted fd); in rendezvous mode a nonzero srt_bind result goes to
fail1 carrying the raw bind result, before the shared connect path. -/
def setupAttempt (mode : SRTMode) (c : CandEnv) : AttemptOut :=
  if c.socketRet < 0 then AttemptOut.failNext (libsrt_neterrno c.socketErr) c.socketRet
  else if c.preFails then AttemptOut.failNext AVERROR_EIO c.socketRet
  else
    match mode with
    | SRTMode.listener =>
      if c.listenRet < 0 then AttemptOut.failStop c.listenRet c.socketRet
      else if c.postFails then AttemptOut.failNext AVERROR_EIO c.listenRet
      else AttemptOut.success c.listenRet
    | SRTMode.rendezvous =>
      if c.bindRet ≠ 0 then AttemptOut.failStop c.bindRet c.socketRet
      else setupAttemptConnect c
    | SRTMode.caller => setupAttemptConnect c

/-- srt_close is called only on nonnegative descriptors. -/
def closeIf (fd : Int) : List Int := if 0 ≤ fd then [fd] else []

/-- Observable outcome of the candidate loop of libsrt_setup: the
return value, the recorded s->fd on success, the number of candidates
attempted, and the descriptors closed by the loop in order. -/
structure LoopResult where
  ret : Int
  sFd : Option Int
  tried : Nat
  closed : List Int
deriving DecidableEq, Repr

/-- The restart loop of libsrt_setup over the resolved candidate list:
on the fail path with another candidate remaining, the current socket
is closed and the loop restarts on the next candidate; otherwise the
fail1 path closes the socket and returns the last error.  The source
never reaches the loop with an empty list (getaddrinfo yields at least
one address); the nil case is an unreachable placeholder. -/
def setupLoop (mode : SRTMode) : List CandEnv → LoopResult
  | [] => { ret := AVERROR_UNKNOWN, sFd := none, tried := 0, closed := [] }
  | c :: cs =>
    match setupAttempt mode c with
    | AttemptOut.success fd => { ret := 0, sFd := some fd, tried := 1, closed := [] }
    | AttemptOut.failStop err fd =>
      { ret := err, sFd := none, tried := 1, closed := closeIf fd }
    | AttemptOut.failNext err fd =>
      match cs with
      | [] => { ret := err, sFd := none, tried := 1, closed := closeIf fd }
      | _ :: _ =>
        let r := setupLoop mode cs
        { ret := r.ret, sFd := r.sFd, tried := r.tried + 1, closed := closeIf fd ++ r.closed }

/-- Environment of one libsrt_setup call: srt_epoll_create result and
last-error code, whether the URI scheme is srt, the parsed port,
whether getaddrinfo succeeds, and the per-candidate environments of the
resolved address list. -/
structure SetupEnv where
  epollRet : Int
  epollErr : Int
  protoOk : Bool
  port : Int
  resolveOk : Bool
  cands : List CandEnv
deriving DecidableEq, Repr

/-- Observable outcome of libsrt_setup: the return value, the recorded
s->fd on success, the recorded s->eid once srt_epoll_create succeeded,
the number of candidates attempted, the descriptors closed, and whether
setup released the epoll group before returning. -/
structure SetupResult where
  ret : Int
  sFd : Option Int
  sEid : Option Int
  tried : Nat
  closed : List Int
  epollReleased : Bool
deriving DecidableEq, Repr

/-- libsrt_setup: create the epoll group and record it in s->eid, check
the scheme and the port range, resolve the host, then run the candidate
loop.  No statement of libsrt_setup calls srt_epoll_release (the group
is released only by libsrt_close), so epollReleased is false on every
path, including every failure path. -/
def libsrt_setup (mode : SRTMode) (e : SetupEnv) : SetupResult :=
  if e.epollRet < 0 then
    { ret := libsrt_neterrno e.epollErr, sFd := none, sEid := none,
      tried := 0, closed := [], epollReleased := false }
  else if ¬ e.protoOk then
    { ret := AVERROR_EINVAL, sFd := none, sEid := some e.epollRet,
      tried := 0, closed := [], epollReleased := false }
  else if e.port ≤ 0 ∨ 65536 ≤ e.port then
    { ret := AVERROR_EINVAL, sFd := none, sEid := some e.epollRet,
      tried := 0, closed := [], epollReleased := false }
  else if ¬ e.resolveOk then
    { ret := AVERROR_EIO, sFd := none, sEid := some e.epollRet,
      tried := 0, closed := [], epollReleased := false }
  else
    let r := setupLoop mode e.cands
    { ret := r.ret, sFd := r.sFd, sEid := some e.epollRet,
      tried := r.tried, closed := r.closed, epollReleased := false }

/-- The pre-connection options libsrt_set_options_pre can apply. -/
inductive PreOpt where
  | rendezvousFlag
  | maxbw
  | pbkeylen
  | passphrase
  | mss
  | fc
  | ipttl
  | iptos
  | tsbpddelayOpt
  | tlpktdrop
  | nakreport
  | conntimeo
deriving DecidableEq, Repr

/-- The SRTContext configuration fields read by
libsrt_set_options_pre.  Numeric fields default to the sentinel -1
(field option table), passphrase to a null pointer. -/
structure SRTConfig where
  mode : SRTMode
  maxbw : Int
  pbkeylen : Int
  passphrase : Option String
  mss : Int
  ffs : Int
  ipttl : Int
  iptos : Int
  tsbpddelay : Int
  tlpktdrop : Int
  nakreport : Int
  connect_timeout : Int
deriving DecidableEq, Repr

/-- libsrt_set_options_pre as the sequence of (option, value) pairs it
passes to srt_setsockopt when every call succeeds.  The locals follow
the source: int tsbpddelay = s->tsbpddelay / 1000 (C division truncates
toward zero, then the value narrows to int) and int connect_timeout =
s->connect_timeout; each option is guarded by its own condition, the
passphrase by pointer non-nullness (its value column is unused here). -/
def libsrt_set_options_pre (s : SRTConfig) : List (PreOpt × Int) :=
  let tsbpddelay := wrap32 (Int.tdiv s.tsbpddelay 1000)
  let connect_timeout := wrap32 s.connect_timeout
  (if s.mode = SRTMode.rendezvous then [(PreOpt.rendezvousFlag, 1)] else []) ++
  (if 0 ≤ s.maxbw then [(PreOpt.maxbw, s.maxbw)] else []) ++
  (if 0 ≤ s.pbkeylen then [(PreOpt.pbkeylen, s.pbkeylen)] else []) ++
  (if s.passphrase.isSome then [(PreOpt.passphrase, 0)] else []) ++
  (if 0 ≤ s.mss then [(PreOpt.mss, s.mss)] else []) ++
  (if 0 ≤ s.ffs then [(PreOpt.fc, s.ffs)] else []) ++
  (if 0 ≤ s.ipttl then [(PreOpt.ipttl, s.ipttl)] else []) ++
  (if 0 ≤ s.iptos then [(PreOpt.iptos, s.iptos)] else []) ++
  (if 0 ≤ tsbpddelay then [(PreOpt.tsbpddelayOpt, tsbpddelay)] else []) ++
  (if 0 ≤ s.tlpktdrop then [(PreOpt.tlpktdrop, s.tlpktdrop)] else []) ++
  (if 0 ≤ s.nakreport then [(PreOpt.nakreport, s.nakreport)] else []) ++
  (if 0 ≤ connect_timeout then [(PreOpt.conntimeo, connect_timeout)] else [])

/-- The all-sentinel configuration: every numeric option -1 (unset),
no passphrase, default caller mode. -/
def allUnsetConfig : SRTConfig :=
  { mode := SRTMode.caller, maxbw := -1, pbkeylen := -1, passphrase := none,
    mss := -1, ffs := -1, ipttl := -1, iptos := -1, tsbpddelay := -1,
    tlpktdrop := -1, nakreport := -1, connect_timeout := -1 }

/-- Mode parsing in libsrt_open: caller, listener and rendezvous are
accepted; any other value for the mode tag yields AVERROR(EIO). -/
def libsrt_parse_mode (v : String) : Except Int SRTMode :=
  if v = "caller" then Except.ok SRTMode.caller
  else if v = "listener" then Except.ok SRTMode.listener
  else if v = "rendezvous" then Except.ok SRTMode.rendezvous
  else Except.error AVERROR_EIO

/-- libsrt_open restricted to its mode query handling: with no mode tag
or a recognized one, the result is whatever libsrt_setup returns; an
unrecognized mode value returns AVERROR(EIO) before setup runs (the
setupRet argument is ignored on that path). -/
def libsrt_open (modeTag : Option String) (setupRet : Int) : Int :=
  match modeTag with
  | none => setupRet
  | some v =>
    match libsrt_parse_mode v with
    | Except.error err => err
    | Except.ok _ => setupRet

theorem libsrt_neterrno_ne_zero (x : Int) : libsrt_neterrno x ≠ 0 := by
  unfold libsrt_neterrno
  split <;> decide

theorem libsrt_neterrno_ne_etimedout (x : Int) : libsrt_neterrno x ≠ AVERROR_ETIMEDOUT := by
  unfold libsrt_neterrno
  split <;> decide

theorem waitFdR_ne_etimedout (e : WaitFdEnv) : waitFdR e ≠ AVERROR_ETIMEDOUT := by
  unfold waitFdR libsrt_network_wait_fd
  dsimp only
  split
  · exact libsrt_neterrno_ne_etimedout _
  · split
    · exact libsrt_neterrno_ne_etimedout _
    · dsimp only
      split
      · split
        · decide
        · exact libsrt_neterrno_ne_etimedout _
      · decide

/-- Claim C9: a readiness-wait call registers the socket in the group
before polling and, whenever registration succeeded, deregisters it
again before returning regardless of the poll's outcome, leaving the
group's registration set unchanged across the call. -/
theorem libsrt_network_wait_fd_frame (e : WaitFdEnv) (fd : Int) (g : Finset Int)
    (h : fd ∉ g) :
    (libsrt_network_wait_fd e fd g).group = g ∧
    (0 ≤ e.addRet →
      (libsrt_network_wait_fd e fd g).calls =
        [EpollCall.addCall fd, EpollCall.waitCall, EpollCall.removeCall fd]) := by
  unfold libsrt_network_wait_fd
  by_cases ha : e.addRet < 0
  · refine ⟨by simp [ha], fun hc => absurd hc (by omega)⟩
  · by_cases hr : e.removeRet < 0
    · exact ⟨by simp [ha, hr, Finset.erase_insert h], fun _ => by simp [ha, hr]⟩
    · exact ⟨by simp [ha, hr, Finset.erase_insert h], fun _ => by simp [ha, hr]⟩

/-- Witness for C9 at a concrete environment and a fresh fd. -/
theorem libsrt_network_wait_fd_frame_witness :
    (7 : Int) ∉ (∅ : Finset Int) ∧
    (libsrt_network_wait_fd ⟨0, 0, -1, 6003, 0, 0⟩ 7 ∅).group = ∅ ∧
    (libsrt_network_wait_fd ⟨0, 0, -1, 6003, 0, 0⟩ 7 ∅).calls =
      [EpollCall.addCall 7, EpollCall.waitCall, EpollCall.removeCall 7] := by
  refine ⟨by decide, ?_, ?_⟩
  · exact (libsrt_network_wait_fd_frame ⟨0, 0, -1, 6003, 0, 0⟩ 7 ∅ (by decide)).1
  · exact (libsrt_network_wait_fd_frame ⟨0, 0, -1, 6003, 0, 0⟩ 7 ∅ (by decide)).2 (by decide)

/-- Claim C10: if the poll reports the socket ready but the subsequent
deregistration fails, the call returns the deregistration's mapped error
instead of the success code 0. -/
theorem libsrt_network_wait_fd_remove_error (e : WaitFdEnv) (fd : Int) (g : Finset Int)
    (ha : 0 ≤ e.addRet) (hw : 0 ≤ e.waitRet) (hr : e.removeRet < 0) :
    (libsrt_network_wait_fd e fd g).ret = libsrt_neterrno e.removeErr ∧
    (libsrt_network_wait_fd e fd g).ret ≠ 0 := by
  unfold libsrt_network_wait_fd
  have ha' : ¬ e.addRet < 0 := by omega
  exact ⟨by simp [ha', hr], by simp [ha', hr]; exact libsrt_neterrno_ne_zero _⟩

/-- Witness for C10: ready poll, failed removal, result is the mapped
removal error (here SRT_EASYNCRCV mapped to AVERROR(EAGAIN)). -/
theorem libsrt_network_wait_fd_remove_error_witness :
    (libsrt_network_wait_fd ⟨0, 0, 0, 0, -1, 6002⟩ 3 ∅).ret = libsrt_neterrno 6002 ∧
    (libsrt_network_wait_fd ⟨0, 0, 0, 0, -1, 6002⟩ 3 ∅).ret ≠ 0 :=
  libsrt_network_wait_fd_remove_error ⟨0, 0, 0, 0, -1, 6002⟩ 3 ∅ (by decide) (by decide) (by decide)

theorem waitTimeout_nonpos_ne_etimedout (timeout : Int) (h : timeout ≤ 0) :
    ∀ (l : List WaitIter) (ws : Int),
      (libsrt_network_wait_fd_timeout timeout l ws).1 ≠ some AVERROR_ETIMEDOUT := by
  intro l
  induction l with
  | nil => intro ws; simp [libsrt_network_wait_fd_timeout]
  | cons it rest ih =>
    intro ws
    simp only [libsrt_network_wait_fd_timeout]
    by_cases hi : it.interrupted = true
    · rw [if_pos hi]
      intro hc
      have hc' : AVERROR_EXIT = AVERROR_ETIMEDOUT := by simpa using hc
      exact absurd hc' (by decide)
    · by_cases hr : waitFdR it.fdEnv ≠ AVERROR_EAGAIN
      · rw [if_neg hi, if_pos hr]
        intro hc
        exact waitFdR_ne_etimedout it.fdEnv (by simpa using hc)
      · have hnt : ¬ 0 < timeout := by omega
        rw [if_neg hi, if_neg hr, if_neg hnt]
        exact ih ws

theorem waitTimeout_nonpos_all_eagain (timeout : Int) (h : timeout ≤ 0) :
    ∀ (l : List WaitIter) (ws : Int),
      (∀ it ∈ l, it.interrupted = false ∧ waitFdR it.fdEnv = AVERROR_EAGAIN) →
      libsrt_network_wait_fd_timeout timeout l ws = (none, []) := by
  intro l
  induction l with
  | nil => intro ws _; simp [libsrt_network_wait_fd_timeout]
  | cons it rest ih =>
    intro ws hall
    obtain ⟨hi, hr⟩ := hall it (List.mem_cons_self it rest)
    have hni : ¬ it.interrupted = true := by simp [hi]
    have hnr : ¬ waitFdR it.fdEnv ≠ AVERROR_EAGAIN := by simp [hr]
    have hnt : ¬ 0 < timeout := by omega
    simp only [libsrt_network_wait_fd_timeout]
    rw [if_neg hni, if_neg hnr, if_neg hnt]
    exact ih ws (fun x hx => hall x (List.mem_cons_of_mem it hx))

theorem waitTimeout_pos_etimedout_iff (timeout : Int) (hpos : 0 < timeout) :
    ∀ (l : List WaitIter) (ws : Int), 0 < ws →
      (∀ it ∈ l, it.interrupted = false ∧ waitFdR it.fdEnv = AVERROR_EAGAIN) →
      ((libsrt_network_wait_fd_timeout timeout l ws).1 = some AVERROR_ETIMEDOUT ↔
        ∃ it, it ∈ l ∧ timeout < it.now - ws) := by
  intro l
  induction l with
  | nil =>
    intro ws _ _
    simp [libsrt_network_wait_fd_timeout]
  | cons it rest ih =>
    intro ws hws hall
    obtain ⟨hi, hr⟩ := hall it (List.mem_cons_self it rest)
    have hni : ¬ it.interrupted = true := by simp [hi]
    have hnr : ¬ waitFdR it.fdEnv ≠ AVERROR_EAGAIN := by simp [hr]
    have hws0 : ¬ ws = 0 := by omega
    simp only [libsrt_network_wait_fd_timeout]
    rw [if_neg hni, if_neg hnr, if_pos hpos, if_neg hws0]
    by_cases ht : timeout < it.now - ws
    · rw [if_pos ht]
      constructor
      · intro _
        exact ⟨it, List.mem_cons_self it rest, ht⟩
      · intro _
        rfl
    · rw [if_neg ht]
      rw [ih ws hws (fun x hx => hall x (List.mem_cons_of_mem it hx))]
      constructor
      · rintro ⟨x, hx, hxt⟩
        exact ⟨x, List.mem_cons_of_mem it hx, hxt⟩
      · rintro ⟨x, hx, hxt⟩
        rcases List.mem_cons.mp hx with hxe | hxm
        · exact absurd (hxe ▸ hxt) ht
        · exact ⟨x, hxm, hxt⟩

/-- Claim C2: with a positive timeout the deadline loop (run over any
stream of uninterrupted would-block polls whose first clock reading is
positive, as av_gettime_relative always is) returns AVERROR(ETIMEDOUT)
exactly when some later iteration's wall-clock reading exceeds the
first-timeout reading by more than the timeout; with a timeout that is
zero or negative it never produces AVERROR(ETIMEDOUT) and keeps looping
as long as polls report would-block. -/
theorem libsrt_network_wait_fd_timeout_deadline
    (timeout : Int) (it0 : WaitIter) (rest : List WaitIter)
    (h0i : it0.interrupted = false) (h0r : waitFdR it0.fdEnv = AVERROR_EAGAIN)
    (h0t : 0 < it0.now)
    (hall : ∀ it ∈ rest, it.interrupted = false ∧ waitFdR it.fdEnv = AVERROR_EAGAIN) :
    (0 < timeout →
      (waitTimeoutRun timeout (it0 :: rest) = some AVERROR_ETIMEDOUT ↔
        ∃ it, it ∈ rest ∧ timeout < it.now - it0.now)) ∧
    (timeout ≤ 0 → waitTimeoutRun timeout (it0 :: rest) = none) ∧
    (timeout ≤ 0 → ∀ (iters : List WaitIter) (ws : Int),
      (libsrt_network_wait_fd_timeout timeout iters ws).1 ≠ some AVERROR_ETIMEDOUT) := by
  refine ⟨?_, ?_, ?_⟩
  · intro hp
    have hstep : waitTimeoutRun timeout (it0 :: rest) =
        (libsrt_network_wait_fd_timeout timeout rest it0.now).1 := by
      simp [waitTimeoutRun, libsrt_network_wait_fd_timeout, h0i, h0r, hp]
    rw [hstep]
    exact waitTimeout_pos_etimedout_iff timeout hp rest it0.now h0t hall
  · intro hn
    have hall' : ∀ it ∈ it0 :: rest, it.interrupted = false ∧ waitFdR it.fdEnv = AVERROR_EAGAIN := by
      intro x hx
      rcases List.mem_cons.mp hx with hxe | hxm
      · exact hxe ▸ ⟨h0i, h0r⟩
      · exact hall x hxm
    have := waitTimeout_nonpos_all_eagain timeout hn (it0 :: rest) 0 hall'
    simp [waitTimeoutRun, this]
  · intro hn iters ws
    exact waitTimeout_nonpos_ne_etimedout timeout hn iters ws

/-- Witness for C2: two would-block polls at clock readings 1 and 100
against timeout 5 produce AVERROR(ETIMEDOUT). -/
theorem libsrt_network_wait_fd_timeout_deadline_witness :
    waitTimeoutRun 5 [⟨false, ⟨0, 0, -1, 6003, 0, 0⟩, 1⟩, ⟨false, ⟨0, 0, -1, 6003, 0, 0⟩, 100⟩] =
      some AVERROR_ETIMEDOUT := by
  have h := libsrt_network_wait_fd_timeout_deadline 5
    ⟨false, ⟨0, 0, -1, 6003, 0, 0⟩, 1⟩ [⟨false, ⟨0, 0, -1, 6003, 0, 0⟩, 100⟩]
    rfl (by decide) (by decide)
    (by intro it hit; simp only [List.mem_singleton] at hit; subst hit; exact ⟨rfl, by decide⟩)
  exact (h.1 (by decide)).mpr
    ⟨⟨false, ⟨0, 0, -1, 6003, 0, 0⟩, 100⟩, List.mem_singleton_self _, by decide⟩

theorem waitTimeout_all_eagain (timeout : Int) :
    ∀ (l : List WaitIter) (ws : Int),
      (∀ it ∈ l, it.interrupted = false ∧ waitFdR it.fdEnv = AVERROR_EAGAIN) →
      (libsrt_network_wait_fd_timeout timeout l ws).1 = none ∨
      ((libsrt_network_wait_fd_timeout timeout l ws).1 = some AVERROR_ETIMEDOUT ∧
        ∀ it ∈ (libsrt_network_wait_fd_timeout timeout l ws).2,
          it.interrupted = false ∧ waitFdR it.fdEnv = AVERROR_EAGAIN) := by
  intro l
  induction l with
  | nil => intro ws _; left; simp [libsrt_network_wait_fd_timeout]
  | cons it rest ih =>
    intro ws hall
    obtain ⟨hi, hr⟩ := hall it (List.mem_cons_self it rest)
    have hni : ¬ it.interrupted = true := by simp [hi]
    have hnr : ¬ waitFdR it.fdEnv ≠ AVERROR_EAGAIN := by simp [hr]
    have htail : ∀ x ∈ rest, x.interrupted = false ∧ waitFdR x.fdEnv = AVERROR_EAGAIN :=
      fun x hx => hall x (List.mem_cons_of_mem it hx)
    simp only [libsrt_network_wait_fd_timeout]
    rw [if_neg hni, if_neg hnr]
    by_cases hp : 0 < timeout
    · rw [if_pos hp]
      by_cases hws : ws = 0
      · rw [if_pos hws]
        exact ih it.now htail
      · rw [if_neg hws]
        by_cases ht : timeout < it.now - ws
        · rw [if_pos ht]
          right
          exact ⟨rfl, htail⟩
        · rw [if_neg ht]
          exact ih ws htail
    · rw [if_neg hp]
      exact ih ws htail

theorem waitTimeout_append (timeout : Int) :
    ∀ (l1 : List WaitIter) (ws r : Int) (rem l2 : List WaitIter),
      libsrt_network_wait_fd_timeout timeout l1 ws = (some r, rem) →
      libsrt_network_wait_fd_timeout timeout (l1 ++ l2) ws = (some r, rem ++ l2) := by
  intro l1
  induction l1 with
  | nil =>
    intro ws r rem l2 h
    exact absurd h (by simp [libsrt_network_wait_fd_timeout])
  | cons it rest ih =>
    intro ws r rem l2 h
    simp only [List.cons_append, libsrt_network_wait_fd_timeout] at h ⊢
    by_cases hi : it.interrupted = true
    · rw [if_pos hi] at h ⊢
      injection h with h1 h2
      injection h1 with h1
      subst h1; subst h2
      rfl
    · rw [if_neg hi] at h ⊢
      by_cases hr : waitFdR it.fdEnv ≠ AVERROR_EAGAIN
      · rw [if_pos hr] at h ⊢
        injection h with h1 h2
        injection h1 with h1
        subst h1; subst h2
        rfl
      · rw [if_neg hr] at h ⊢
        by_cases hp : 0 < timeout
        · rw [if_pos hp] at h ⊢
          by_cases hws : ws = 0
          · rw [if_pos hws] at h ⊢
            exact ih it.now r rem l2 h
          · rw [if_neg hws] at h ⊢
            by_cases ht : timeout < it.now - ws
            · rw [if_pos ht] at h ⊢
              injection h with h1 h2
              injection h1 with h1
              subst h1; subst h2
              rfl
            · rw [if_neg ht] at h ⊢
              exact ih ws r rem l2 h
        · rw [if_neg hp] at h ⊢
          exact ih ws r rem l2 h

theorem listenWaitLoop_ne_etimedout (timeout : Int) :
    ∀ (fuel : Nat) (iters : List WaitIter),
      listenWaitLoop timeout fuel iters ≠ some AVERROR_ETIMEDOUT := by
  intro fuel
  induction fuel with
  | zero => intro iters; simp [listenWaitLoop]
  | succ n ih =>
    intro iters
    rcases hgo : libsrt_network_wait_fd_timeout timeout iters 0 with ⟨o, rest⟩
    cases o with
    | none => simp [listenWaitLoop, hgo]
    | some r =>
      simp only [listenWaitLoop, hgo]
      by_cases h0 : r = 0
      · rw [if_pos h0]
        intro hc
        exact absurd (by simpa using hc) (by decide : ¬ (0 : Int) = AVERROR_ETIMEDOUT)
      · rw [if_neg h0]
        by_cases hT : r = AVERROR_ETIMEDOUT
        · rw [if_pos hT]
          exact ih rest
        · rw [if_neg hT]
          intro hc
          exact hT (by simpa using hc)

theorem listenWaitLoop_all_eagain (timeout : Int) :
    ∀ (fuel : Nat) (iters : List WaitIter),
      (∀ it ∈ iters, it.interrupted = false ∧ waitFdR it.fdEnv = AVERROR_EAGAIN) →
      listenWaitLoop timeout fuel iters = none := by
  intro fuel
  induction fuel with
  | zero => intro iters _; rfl
  | succ n ih =>
    intro iters hall
    rcases hgo : libsrt_network_wait_fd_timeout timeout iters 0 with ⟨o, rest⟩
    rcases waitTimeout_all_eagain timeout iters 0 hall with hnone | ⟨hT, hrest⟩
    · rw [hgo] at hnone
      simp only at hnone
      subst hnone
      simp [listenWaitLoop, hgo]
    · rw [hgo] at hT hrest
      simp only at hT hrest
      subst hT
      simp only [listenWaitLoop, hgo]
      rw [if_neg (by decide : ¬ (AVERROR_ETIMEDOUT : Int) = 0), if_pos trivial]
      exact ih rest hrest

theorem libsrt_listen_ne_etimedout (timeout : Int) (e : ListenEnv) (fuel : Nat) :
    libsrt_listen timeout e fuel ≠ some AVERROR_ETIMEDOUT := by
  unfold libsrt_listen
  by_cases hb : e.bindRet ≠ 0
  · rw [if_pos hb]
    intro hc
    exact libsrt_neterrno_ne_etimedout _ (by simpa using hc)
  · rw [if_neg hb]
    by_cases hl : e.listenRet ≠ 0
    · rw [if_pos hl]
      intro hc
      exact libsrt_neterrno_ne_etimedout _ (by simpa using hc)
    · rw [if_neg hl]
      rcases hlw : listenWaitLoop timeout fuel e.iters with _ | r
      · simp
      · simp only
        by_cases h0 : r ≠ 0
        · rw [if_pos h0]
          intro hc
          have hre : r = AVERROR_ETIMEDOUT := by simpa using hc
          exact listenWaitLoop_ne_etimedout timeout fuel e.iters (hre ▸ hlw)
        · rw [if_neg h0]
          by_cases hacc : e.acceptRet < 0
          · rw [if_pos hacc]
            intro hc
            exact libsrt_neterrno_ne_etimedout _ (by simpa using hc)
          · rw [if_neg hacc]
            intro hc
            have hae : e.acceptRet = AVERROR_ETIMEDOUT := by simpa using hc
            simp only [AVERROR_ETIMEDOUT] at hae
            omega

/-- Counterexample to claim C1 as stated: a listener setup with
positive listen_timeout 2000000 and a peer that never becomes
acceptable does not terminate with a timeout-class error; after polls
whose wall-clock readings exceed every timeout by far, libsrt_listen is
still looping (and the wait uses open_timeout / 1000 = 5000, not
listen_timeout). -/
theorem libsrt_listen_timeout_hangs :
    (0 : Int) < 2000000 ∧
    libsrt_listen_timeout_arg (-1) 2000000 = 5000 ∧
    libsrt_listen (libsrt_listen_timeout_arg (-1) 2000000)
      { bindRet := 0, bindErr := 0, listenRet := 0, listenErr := 0,
        iters := [⟨false, ⟨0, 0, -1, 6003, 0, 0⟩, 1⟩,
                  ⟨false, ⟨0, 0, -1, 6003, 0, 0⟩, 1000000000000⟩,
                  ⟨false, ⟨0, 0, -1, 6003, 0, 0⟩, 2000000000000⟩,
                  ⟨false, ⟨0, 0, -1, 6003, 0, 0⟩, 3000000000000⟩],
        acceptRet := 0, acceptErr := 0 } 5 = none := by
  refine ⟨by decide, by decide, ?_⟩
  decide

/-- Claim C1 (amended): the accept wait of listener-mode setup ignores
listen_timeout (the timeout argument is derived from rw_timeout only),
never returns a timeout-class error (every AVERROR(ETIMEDOUT) from the
deadline loop restarts the wait), and with a peer that never becomes
acceptable and no cancellation it never returns at all. -/
theorem libsrt_listen_never_times_out :
    (∀ (rw a b : Int), libsrt_listen_timeout_arg rw a = libsrt_listen_timeout_arg rw b) ∧
    (∀ (timeout : Int) (e : ListenEnv) (fuel : Nat),
      libsrt_listen timeout e fuel ≠ some AVERROR_ETIMEDOUT) ∧
    (∀ (timeout : Int) (e : ListenEnv) (fuel : Nat),
      e.bindRet = 0 → e.listenRet = 0 →
      (∀ it ∈ e.iters, it.interrupted = false ∧ waitFdR it.fdEnv = AVERROR_EAGAIN) →
      libsrt_listen timeout e fuel = none) := by
  refine ⟨fun _ _ _ => rfl, libsrt_listen_ne_etimedout, ?_⟩
  intro timeout e fuel hb hl hall
  have hb' : ¬ e.bindRet ≠ 0 := by simp [hb]
  have hl' : ¬ e.listenRet ≠ 0 := by simp [hl]
  unfold libsrt_listen
  rw [if_neg hb', if_neg hl', listenWaitLoop_all_eagain timeout fuel e.iters hall]

/-- Witness for the amended C1 at a concrete environment. -/
theorem libsrt_listen_never_times_out_witness :
    libsrt_listen 5000
      { bindRet := 0, bindErr := 0, listenRet := 0, listenErr := 0,
        iters := [⟨false, ⟨0, 0, -1, 6003, 0, 0⟩, 1⟩],
        acceptRet := 0, acceptErr := 0 } 3 = none :=
  libsrt_listen_never_times_out.2.2 5000
    { bindRet := 0, bindErr := 0, listenRet := 0, listenErr := 0,
      iters := [⟨false, ⟨0, 0, -1, 6003, 0, 0⟩, 1⟩],
      acceptRet := 0, acceptErr := 0 } 3 rfl rfl
    (by intro it hit
        simp only [List.mem_singleton] at hit
        subst hit
        exact ⟨rfl, by decide⟩)

theorem setupAttempt_pre_fail (mode : SRTMode) (c : CandEnv)
    (hs : 0 ≤ c.socketRet) (hp : c.preFails = true) :
    setupAttempt mode c = AttemptOut.failNext AVERROR_EIO c.socketRet := by
  unfold setupAttempt
  rw [if_neg (by omega), if_pos hp]

theorem setupAttempt_listener_fail (c : CandEnv)
    (hs : 0 ≤ c.socketRet) (hp : c.preFails = false) (hl : c.listenRet < 0) :
    setupAttempt SRTMode.listener c = AttemptOut.failStop c.listenRet c.socketRet := by
  unfold setupAttempt
  rw [if_neg (by omega), if_neg (by simp [hp])]
  dsimp only
  rw [if_pos hl]

theorem setupAttempt_caller_connect_fail (c : CandEnv)
    (hs : 0 ≤ c.socketRet) (hp : c.preFails = false)
    (hc : c.connectRet < 0) (hne : c.connectRet ≠ AVERROR_EXIT) :
    setupAttempt SRTMode.caller c = AttemptOut.failNext c.connectRet c.socketRet := by
  unfold setupAttempt setupAttemptConnect
  rw [if_neg (by omega), if_neg (by simp [hp])]
  dsimp only
  rw [if_pos hc, if_neg hne]

theorem setupAttempt_caller_exit (c : CandEnv)
    (hs : 0 ≤ c.socketRet) (hp : c.preFails = false)
    (hx : c.connectRet = AVERROR_EXIT) :
    setupAttempt SRTMode.caller c = AttemptOut.failStop c.connectRet c.socketRet := by
  unfold setupAttempt setupAttemptConnect
  rw [if_neg (by omega), if_neg (by simp [hp])]
  dsimp only
  rw [if_pos (by rw [hx]; decide), if_pos hx]

theorem setupLoop_advance (mode : SRTMode) (c : CandEnv) (cs : List CandEnv)
    (err fd : Int) (hne : cs ≠ [])
    (hatt : setupAttempt mode c = AttemptOut.failNext err fd) :
    (setupLoop mode (c :: cs)).ret = (setupLoop mode cs).ret ∧
    (setupLoop mode (c :: cs)).sFd = (setupLoop mode cs).sFd ∧
    (setupLoop mode (c :: cs)).tried = (setupLoop mode cs).tried + 1 ∧
    (setupLoop mode (c :: cs)).closed = closeIf fd ++ (setupLoop mode cs).closed := by
  cases cs with
  | nil => exact absurd rfl hne
  | cons c2 cs2 =>
    refine ⟨?_, ?_, ?_, ?_⟩ <;> simp [setupLoop, hatt]

theorem setupLoop_failNext_last (mode : SRTMode) (c : CandEnv) (err fd : Int)
    (hatt : setupAttempt mode c = AttemptOut.failNext err fd) :
    setupLoop mode [c] = { ret := err, sFd := none, tried := 1, closed := closeIf fd } := by
  simp [setupLoop, hatt]

theorem setupLoop_failStop (mode : SRTMode) (c : CandEnv) (cs : List CandEnv) (err fd : Int)
    (hatt : setupAttempt mode c = AttemptOut.failStop err fd) :
    setupLoop mode (c :: cs) = { ret := err, sFd := none, tried := 1, closed := closeIf fd } := by
  cases cs <;> simp [setupLoop, hatt]

theorem setupLoop_caller_all_fail (cands : List CandEnv) (clast : CandEnv)
    (hall : ∀ x ∈ cands ++ [clast], 0 ≤ x.socketRet ∧ x.preFails = false ∧
      x.connectRet < 0 ∧ x.connectRet ≠ AVERROR_EXIT) :
    (setupLoop SRTMode.caller (cands ++ [clast])).ret = clast.connectRet ∧
    (setupLoop SRTMode.caller (cands ++ [clast])).tried = cands.length + 1 := by
  induction cands with
  | nil =>
    obtain ⟨hs, hp, hc, hne⟩ := hall clast (by simp)
    have hatt := setupAttempt_caller_connect_fail clast hs hp hc hne
    rw [List.nil_append, setupLoop_failNext_last SRTMode.caller clast _ _ hatt]
    exact ⟨rfl, rfl⟩
  | cons c cs ih =>
    obtain ⟨hs, hp, hc, hne⟩ := hall c (by simp)
    have hatt := setupAttempt_caller_connect_fail c hs hp hc hne
    have hlist : (c :: cs) ++ [clast] = c :: (cs ++ [clast]) := by simp
    rw [hlist]
    have hadv := setupLoop_advance SRTMode.caller c (cs ++ [clast]) _ _ (by simp) hatt
    have ihh := ih (fun x hx => hall x (by simp at hx ⊢; tauto))
    refine ⟨?_, ?_⟩
    · rw [hadv.1, ihh.1]
    · rw [hadv.2.2.1, ihh.2]
      simp [List.length_cons]

theorem setupAttempt_rendezvous_bind_fail (c : CandEnv)
    (hs : 0 ≤ c.socketRet) (hp : c.preFails = false) (hb : c.bindRet ≠ 0) :
    setupAttempt SRTMode.rendezvous c = AttemptOut.failStop c.bindRet c.socketRet := by
  unfold setupAttempt
  rw [if_neg (by omega), if_neg (by simp [hp])]
  dsimp only
  rw [if_pos hb]

theorem setupAttempt_rendezvous_connect_fail (c : CandEnv)
    (hs : 0 ≤ c.socketRet) (hp : c.preFails = false) (hb : c.bindRet = 0)
    (hc : c.connectRet < 0) (hne : c.connectRet ≠ AVERROR_EXIT) :
    setupAttempt SRTMode.rendezvous c = AttemptOut.failNext c.connectRet c.socketRet := by
  unfold setupAttempt setupAttemptConnect
  rw [if_neg (by omega), if_neg (by simp [hp])]
  dsimp only
  rw [if_neg (by simp [hb]), if_pos hc, if_neg hne]

/-- Counterexample to claim C3 as stated: in listener mode a listen
failure on the first candidate does not advance to the second candidate
(which would succeed); setup stops after one attempt and reports the
first candidate's error. -/
theorem libsrt_setup_listener_no_fallback :
    (libsrt_setup SRTMode.listener
      { epollRet := 5, epollErr := 0, protoOk := true, port := 9000, resolveOk := true,
        cands := [{ socketRet := 3, socketErr := 0, preFails := false,
                    listenRet := -1313558101, bindRet := 0, connectRet := 0,
                    postFails := false },
                  { socketRet := 4, socketErr := 0, preFails := false, listenRet := 6,
                    bindRet := 0, connectRet := 0, postFails := false }] }).ret =
      AVERROR_UNKNOWN ∧
    (libsrt_setup SRTMode.listener
      { epollRet := 5, epollErr := 0, protoOk := true, port := 9000, resolveOk := true,
        cands := [{ socketRet := 3, socketErr := 0, preFails := false,
                    listenRet := -1313558101, bindRet := 0, connectRet := 0,
                    postFails := false },
                  { socketRet := 4, socketErr := 0, preFails := false, listenRet := 6,
                    bindRet := 0, connectRet := 0, postFails := false }] }).tried = 1 := by
  constructor <;> decide

/-- Claim C3 (amended): on the connect path a non-cancellation failure
closes the candidate's socket and advances to the next candidate, both
in caller mode and at the connect step of rendezvous mode, and when
every candidate fails that way the reported error is the last
candidate's; but listener-mode failures (bind/listen/accept inside
libsrt_listen) and rendezvous bind failures stop the whole setup at the
first failing candidate without advancing. -/
theorem libsrt_setup_candidate_fallback :
    (∀ (c : CandEnv) (cs : List CandEnv), cs ≠ [] →
      0 ≤ c.socketRet → c.preFails = false → c.connectRet < 0 →
      c.connectRet ≠ AVERROR_EXIT →
      (setupLoop SRTMode.caller (c :: cs)).ret = (setupLoop SRTMode.caller cs).ret ∧
      (setupLoop SRTMode.caller (c :: cs)).tried = (setupLoop SRTMode.caller cs).tried + 1 ∧
      (setupLoop SRTMode.caller (c :: cs)).closed =
        c.socketRet :: (setupLoop SRTMode.caller cs).closed) ∧
    (∀ (cands : List CandEnv) (clast : CandEnv),
      (∀ x ∈ cands ++ [clast], 0 ≤ x.socketRet ∧ x.preFails = false ∧
        x.connectRet < 0 ∧ x.connectRet ≠ AVERROR_EXIT) →
      (setupLoop SRTMode.caller (cands ++ [clast])).ret = clast.connectRet ∧
      (setupLoop SRTMode.caller (cands ++ [clast])).tried = cands.length + 1) ∧
    (∀ (c : CandEnv) (cs : List CandEnv),
      0 ≤ c.socketRet → c.preFails = false → c.listenRet < 0 →
      (setupLoop SRTMode.listener (c :: cs)).ret = c.listenRet ∧
      (setupLoop SRTMode.listener (c :: cs)).tried = 1 ∧
      (setupLoop SRTMode.listener (c :: cs)).closed = [c.socketRet]) ∧
    (∀ (c : CandEnv) (cs : List CandEnv), cs ≠ [] →
      0 ≤ c.socketRet → c.preFails = false → c.bindRet = 0 → c.connectRet < 0 →
      c.connectRet ≠ AVERROR_EXIT →
      (setupLoop SRTMode.rendezvous (c :: cs)).ret = (setupLoop SRTMode.rendezvous cs).ret ∧
      (setupLoop SRTMode.rendezvous (c :: cs)).tried =
        (setupLoop SRTMode.rendezvous cs).tried + 1 ∧
      (setupLoop SRTMode.rendezvous (c :: cs)).closed =
        c.socketRet :: (setupLoop SRTMode.rendezvous cs).closed) ∧
    (∀ (c : CandEnv) (cs : List CandEnv),
      0 ≤ c.socketRet → c.preFails = false → c.bindRet ≠ 0 →
      (setupLoop SRTMode.rendezvous (c :: cs)).ret = c.bindRet ∧
      (setupLoop SRTMode.rendezvous (c :: cs)).tried = 1 ∧
      (setupLoop SRTMode.rendezvous (c :: cs)).closed = [c.socketRet]) := by
  refine ⟨?_, setupLoop_caller_all_fail, ?_, ?_, ?_⟩
  · intro c cs hne hs hp hc hcne
    have hatt := setupAttempt_caller_connect_fail c hs hp hc hcne
    have hadv := setupLoop_advance SRTMode.caller c cs _ _ hne hatt
    refine ⟨hadv.1, hadv.2.2.1, ?_⟩
    rw [hadv.2.2.2]
    simp [closeIf, hs]
  · intro c cs hs hp hl
    have hatt := setupAttempt_listener_fail c hs hp hl
    rw [setupLoop_failStop SRTMode.listener c cs _ _ hatt]
    refine ⟨rfl, rfl, ?_⟩
    simp [closeIf, hs]
  · intro c cs hne hs hp hb hc hcne
    have hatt := setupAttempt_rendezvous_connect_fail c hs hp hb hc hcne
    have hadv := setupLoop_advance SRTMode.rendezvous c cs _ _ hne hatt
    refine ⟨hadv.1, hadv.2.2.1, ?_⟩
    rw [hadv.2.2.2]
    simp [closeIf, hs]
  · intro c cs hs hp hb
    have hatt := setupAttempt_rendezvous_bind_fail c hs hp hb
    rw [setupLoop_failStop SRTMode.rendezvous c cs _ _ hatt]
    refine ⟨rfl, rfl, ?_⟩
    simp [closeIf, hs]

/-- Witness for the amended C3 at concrete candidates: a caller-mode
connect refusal advances, a listener-mode listen failure stops, and a
rendezvous bind failure stops. -/
theorem libsrt_setup_candidate_fallback_witness :
    ((setupLoop SRTMode.caller
        [{ socketRet := 3, socketErr := 0, preFails := false, listenRet := 0,
           bindRet := 0, connectRet := -7, postFails := false },
         { socketRet := 4, socketErr := 0, preFails := false, listenRet := 0,
           bindRet := 0, connectRet := 0, postFails := false }]).ret =
      (setupLoop SRTMode.caller
        [{ socketRet := 4, socketErr := 0, preFails := false, listenRet := 0,
           bindRet := 0, connectRet := 0, postFails := false }]).ret) ∧
    (setupLoop SRTMode.listener
      [{ socketRet := 3, socketErr := 0, preFails := false, listenRet := -9,
         bindRet := 0, connectRet := 0, postFails := false }]).ret = -9 ∧
    (setupLoop SRTMode.rendezvous
      [{ socketRet := 3, socketErr := 0, preFails := false, listenRet := 0,
         bindRet := -1, connectRet := 0, postFails := false },
       { socketRet := 4, socketErr := 0, preFails := false, listenRet := 0,
         bindRet := 0, connectRet := 0, postFails := false }]).tried = 1 := by
  refine ⟨?_, ?_, ?_⟩
  · exact (libsrt_setup_candidate_fallback.1
      { socketRet := 3, socketErr := 0, preFails := false, listenRet := 0,
        bindRet := 0, connectRet := -7, postFails := false }
      [{ socketRet := 4, socketErr := 0, preFails := false, listenRet := 0,
         bindRet := 0, connectRet := 0, postFails := false }]
      (by decide) (by decide) rfl (by decide) (by decide)).1
  · exact (libsrt_setup_candidate_fallback.2.2.1
      { socketRet := 3, socketErr := 0, preFails := false, listenRet := -9,
        bindRet := 0, connectRet := 0, postFails := false }
      [] (by decide) rfl (by decide)).1
  · exact (libsrt_setup_candidate_fallback.2.2.2.2
      { socketRet := 3, socketErr := 0, preFails := false, listenRet := 0,
        bindRet := -1, connectRet := 0, postFails := false }
      [{ socketRet := 4, socketErr := 0, preFails := false, listenRet := 0,
         bindRet := 0, connectRet := 0, postFails := false }]
      (by decide) rfl (by decide)).2.1

/-- Counterexample to claim C4 as stated: the first candidate's
pre-option failure does not abort the whole setup; the second candidate
is attempted and setup succeeds. -/
theorem libsrt_setup_pre_option_failure_not_fatal :
    (libsrt_setup SRTMode.caller
      { epollRet := 5, epollErr := 0, protoOk := true, port := 9000, resolveOk := true,
        cands := [{ socketRet := 3, socketErr := 0, preFails := true, listenRet := 0,
                    bindRet := 0, connectRet := 0, postFails := false },
                  { socketRet := 4, socketErr := 0, preFails := false, listenRet := 0,
                    bindRet := 0, connectRet := 0, postFails := false }] }).ret = 0 ∧
    (libsrt_setup SRTMode.caller
      { epollRet := 5, epollErr := 0, protoOk := true, port := 9000, resolveOk := true,
        cands := [{ socketRet := 3, socketErr := 0, preFails := true, listenRet := 0,
                    bindRet := 0, connectRet := 0, postFails := false },
                  { socketRet := 4, socketErr := 0, preFails := false, listenRet := 0,
                    bindRet := 0, connectRet := 0, postFails := false }] }).tried = 2 := by
  constructor <;> decide

/-- Claim C4 (amended): a pre-option failure is handled like a
per-candidate failure in every mode: the candidate's socket is closed
and setup advances to the next candidate; AVERROR(EIO) is surfaced only
when the failing candidate is the last one. -/
theorem libsrt_setup_pre_option_failure_advances
    (mode : SRTMode) (c : CandEnv) (cs : List CandEnv)
    (hs : 0 ≤ c.socketRet) (hp : c.preFails = true) :
    (cs ≠ [] →
      (setupLoop mode (c :: cs)).ret = (setupLoop mode cs).ret ∧
      (setupLoop mode (c :: cs)).tried = (setupLoop mode cs).tried + 1 ∧
      (setupLoop mode (c :: cs)).closed = c.socketRet :: (setupLoop mode cs).closed ∧
      (setupLoop mode (c :: cs)).sFd = (setupLoop mode cs).sFd) ∧
    (cs = [] →
      (setupLoop mode (c :: cs)).ret = AVERROR_EIO ∧
      (setupLoop mode (c :: cs)).closed = [c.socketRet]) := by
  have hatt := setupAttempt_pre_fail mode c hs hp
  constructor
  · intro hne
    have hadv := setupLoop_advance mode c cs _ _ hne hatt
    refine ⟨hadv.1, hadv.2.2.1, ?_, hadv.2.1⟩
    rw [hadv.2.2.2]
    simp [closeIf, hs]
  · intro hnil
    subst hnil
    rw [setupLoop_failNext_last mode c _ _ hatt]
    exact ⟨rfl, by simp [closeIf, hs]⟩

/-- Witness for the amended C4 at concrete candidates. -/
theorem libsrt_setup_pre_option_failure_advances_witness :
    (setupLoop SRTMode.caller
      [{ socketRet := 3, socketErr := 0, preFails := true, listenRet := 0,
         bindRet := 0, connectRet := 0, postFails := false },
       { socketRet := 4, socketErr := 0, preFails := false, listenRet := 0,
         bindRet := 0, connectRet := 0, postFails := false }]).tried =
    (setupLoop SRTMode.caller
      [{ socketRet := 4, socketErr := 0, preFails := false, listenRet := 0,
         bindRet := 0, connectRet := 0, postFails := false }]).tried + 1 :=
  ((libsrt_setup_pre_option_failure_advances SRTMode.caller
    { socketRet := 3, socketErr := 0, preFails := true, listenRet := 0,
      bindRet := 0, connectRet := 0, postFails := false }
    [{ socketRet := 4, socketErr := 0, preFails := false, listenRet := 0,
       bindRet := 0, connectRet := 0, postFails := false }]
    (by decide) rfl).1 (by decide)).2.1

/-- Claim C6: libsrt_setup never releases the epoll group it created,
on no path at all; in particular a failed setup returns with the
readiness group still recorded and live while no socket was recorded,
so a partial state does escape setup (srt_epoll_release appears only in
libsrt_close). -/
theorem libsrt_setup_never_releases_epoll :
    (∀ (mode : SRTMode) (e : SetupEnv), (libsrt_setup mode e).epollReleased = false) ∧
    ((libsrt_setup SRTMode.caller
      { epollRet := 5, epollErr := 0, protoOk := true, port := 9000, resolveOk := true,
        cands := [{ socketRet := 3, socketErr := 0, preFails := false, listenRet := 0,
                    bindRet := 0, connectRet := -1313558101, postFails := false }] }).ret =
        AVERROR_UNKNOWN ∧
     (libsrt_setup SRTMode.caller
      { epollRet := 5, epollErr := 0, protoOk := true, port := 9000, resolveOk := true,
        cands := [{ socketRet := 3, socketErr := 0, preFails := false, listenRet := 0,
                    bindRet := 0, connectRet := -1313558101, postFails := false }] }).sEid =
        some 5 ∧
     (libsrt_setup SRTMode.caller
      { epollRet := 5, epollErr := 0, protoOk := true, port := 9000, resolveOk := true,
        cands := [{ socketRet := 3, socketErr := 0, preFails := false, listenRet := 0,
                    bindRet := 0, connectRet := -1313558101, postFails := false }] }).sFd =
        none ∧
     (libsrt_setup SRTMode.caller
      { epollRet := 5, epollErr := 0, protoOk := true, port := 9000, resolveOk := true,
        cands := [{ socketRet := 3, socketErr := 0, preFails := false, listenRet := 0,
                    bindRet := 0, connectRet := -1313558101, postFails := false }] }).epollReleased =
        false) := by
  constructor
  · intro mode e
    unfold libsrt_setup
    split
    · rfl
    · split
      · rfl
      · split
        · rfl
        · split
          · rfl
          · rfl
  · refine ⟨by decide, by decide, by decide, by decide⟩

/-- Claim C7: a signalled interrupt check makes the deadline loop
return AVERROR_EXIT at once; once the loop has returned, later
available iterations are never consumed (no further network operation
is attempted); in setup a cancelled connect stops at the current
candidate without advancing; and a blocking read or write whose wait is
interrupted returns AVERROR_EXIT without calling receive or send. -/
theorem libsrt_cancellation_propagates :
    (∀ (timeout : Int) (it : WaitIter) (rest : List WaitIter) (ws : Int),
      it.interrupted = true →
      libsrt_network_wait_fd_timeout timeout (it :: rest) ws = (some AVERROR_EXIT, rest)) ∧
    (∀ (timeout : Int) (l1 : List WaitIter) (ws r : Int) (rem l2 : List WaitIter),
      libsrt_network_wait_fd_timeout timeout l1 ws = (some r, rem) →
      libsrt_network_wait_fd_timeout timeout (l1 ++ l2) ws = (some r, rem ++ l2)) ∧
    (∀ (c : CandEnv) (cs : List CandEnv),
      0 ≤ c.socketRet → c.preFails = false → c.connectRet = AVERROR_EXIT →
      (setupLoop SRTMode.caller (c :: cs)).ret = AVERROR_EXIT ∧
      (setupLoop SRTMode.caller (c :: cs)).tried = 1) ∧
    (∀ (timeout : Int) (it : WaitIter) (rest : List WaitIter) (recvRet recvErr : Int),
      it.interrupted = true →
      libsrt_read false timeout (it :: rest) recvRet recvErr = some AVERROR_EXIT) ∧
    (∀ (timeout : Int) (it : WaitIter) (rest : List WaitIter) (sendRet sendErr : Int),
      it.interrupted = true →
      libsrt_write false timeout (it :: rest) sendRet sendErr = some AVERROR_EXIT) := by
  have hstep : ∀ (timeout : Int) (it : WaitIter) (rest : List WaitIter) (ws : Int),
      it.interrupted = true →
      libsrt_network_wait_fd_timeout timeout (it :: rest) ws = (some AVERROR_EXIT, rest) := by
    intro timeout it rest ws hi
    simp only [libsrt_network_wait_fd_timeout]
    rw [if_pos hi]
  refine ⟨hstep, waitTimeout_append, ?_, ?_, ?_⟩
  · intro c cs hs hp hx
    have hatt := setupAttempt_caller_exit c hs hp hx
    rw [setupLoop_failStop SRTMode.caller c cs _ _ hatt]
    exact ⟨hx, rfl⟩
  · intro timeout it rest recvRet recvErr hi
    simp only [libsrt_read, waitTimeoutRun, hstep timeout it rest 0 hi]
    rw [if_neg (by decide : ¬ false = true), if_pos (by decide : (AVERROR_EXIT : Int) ≠ 0)]
  · intro timeout it rest sendRet sendErr hi
    simp only [libsrt_write, waitTimeoutRun, hstep timeout it rest 0 hi]
    rw [if_neg (by decide : ¬ false = true), if_pos (by decide : (AVERROR_EXIT : Int) ≠ 0)]

/-- Witness for C7 at concrete inputs: an interrupted wait inside a
blocking read returns AVERROR_EXIT. -/
theorem libsrt_cancellation_propagates_witness :
    libsrt_read false 100 [⟨true, ⟨0, 0, 0, 0, 0, 0⟩, 1⟩] 55 0 = some AVERROR_EXIT :=
  libsrt_cancellation_propagates.2.2.2.1 100 ⟨true, ⟨0, 0, 0, 0, 0, 0⟩, 1⟩ [] 55 0 rfl

/-- Claim C5: with every numeric option at its sentinel -1, the burst
absorption delay is still applied: int tsbpddelay = s->tsbpddelay /
1000 truncates -1/1000 to 0 in C, the guard 0 <= 0 passes, and
SRTO_TSBPDDELAY is set to 0 — the only option applied from the
all-sentinel configuration, contradicting apply-only-when-set. -/
theorem libsrt_set_options_pre_sentinel_applied :
    libsrt_set_options_pre allUnsetConfig = [(PreOpt.tsbpddelayOpt, 0)] ∧
    Int.tdiv (-1) 1000 = 0 := by
  constructor <;> decide

/-- Counterexample to claim C8 as stated: an unknown mode value makes
open fail with AVERROR(EIO), which is not the invalid-argument code
AVERROR(EINVAL) used for bad scheme or port. -/
theorem libsrt_open_unknown_mode_eio :
    libsrt_open (some "foo") 0 = AVERROR_EIO ∧ AVERROR_EIO ≠ AVERROR_EINVAL := by
  constructor <;> decide

/-- Claim C8 (amended): any mode value other than caller, listener and
rendezvous makes libsrt_open return AVERROR(EIO) at open time, before
and independently of libsrt_setup. -/
theorem libsrt_open_unknown_mode (v : String) (setupRet : Int)
    (h1 : v ≠ "caller") (h2 : v ≠ "listener") (h3 : v ≠ "rendezvous") :
    libsrt_open (some v) setupRet = AVERROR_EIO := by
  simp [libsrt_open, libsrt_parse_mode, h1, h2, h3]

/-- Witness for the amended C8. -/
theorem libsrt_open_unknown_mode_witness :
    libsrt_open (some "server") 7 = AVERROR_EIO :=
  libsrt_open_unknown_mode "server" 7 (by decide) (by decide) (by decide)
